import Mathlib

set_option maxRecDepth 400000

/- Verification development for the system metrics dashboard generator
   (health-checks/system_metrics_report.py).  The Collector (class
   SystemMetrics) and the Renderer (class HTMLReportGenerator) are shallowly
   embedded: every operating-system probe (file read / external command) is an
   input of the model, numeric values are rationals or integers, and a Python
   exception is an Except.error value. -/

/-- Round-half-to-even of a rational to an integer: the rounding performed by
Python round and by the .1f format specifier (modelled exactly on rationals;
the program only ever rounds values with at most a few decimal digits). -/
def roundHalfEven (q : ℚ) : ℤ :=
  if q - ⌊q⌋ < 1/2 then ⌊q⌋
  else if q - ⌊q⌋ > 1/2 then ⌊q⌋ + 1
  else if ⌊q⌋ % 2 = 0 then ⌊q⌋ else ⌊q⌋ + 1

/-- Python round(x, n) for n decimal digits. -/
def pyRound (q : ℚ) (n : ℕ) : ℚ :=
  (roundHalfEven (q * 10 ^ n) : ℚ) / 10 ^ n

/-- Python f-string .1f formatting: one decimal digit, half-even rounded. -/
def fmt1 (q : ℚ) : String :=
  let n := roundHalfEven (q * 10)
  (if n < 0 then "-" else "")
    ++ toString (n.natAbs / 10) ++ "." ++ toString (n.natAbs % 10)

/-- Rendering of a Python float by an f-string without a format specifier:
minimal number of decimal digits, at least one.  The program only interpolates
floats produced by round(x, 1) or round(x, 2), so at most two digits occur;
denominators not dividing 100 are truncated at two digits. -/
def floatStr (q : ℚ) : String :=
  let sign := if q < 0 then "-" else ""
  let a := if q < 0 then -q else q
  if a.den = 1 then sign ++ toString a.num ++ ".0"
  else if (a * 10).den = 1 then
    sign ++ toString ((a * 10).num / 10) ++ "." ++ toString ((a * 10).num % 10)
  else
    sign ++ toString (⌊a * 100⌋ / 100) ++ "."
      ++ toString (⌊a * 100⌋ / 10 % 10) ++ toString (⌊a * 100⌋ % 10)

/-- Checked division: Python raises ZeroDivisionError on a zero denominator. -/
def pydiv (a b : ℚ) : Except String ℚ :=
  if b = 0 then Except.error "ZeroDivisionError" else Except.ok (a / b)

/-- bytes_to_human unit loop (collect_memory_metrics.bytes_to_human): step
through B/KB/MB/GB/TB while the value is at least 1024, else format at the
current unit; after TB the value is formatted as PB. -/
def bytesToHumanAux : ℚ → List String → String
  | bytes_val, [] => fmt1 bytes_val ++ " PB"
  | bytes_val, unit :: rest =>
    if bytes_val < 1024 then fmt1 bytes_val ++ " " ++ unit
    else bytesToHumanAux (bytes_val / 1024) rest

/-- bytes_to_human(bytes_val): convert a byte count to a human readable string
with 1024-based units and one decimal digit. -/
def bytes_to_human (bytes_val : ℚ) : String :=
  bytesToHumanAux bytes_val ["B", "KB", "MB", "GB", "TB"]

/-- The string p occurs (contiguously) inside the string s. -/
def SubStr (p s : String) : Prop :=
  p.data <:+: s.data

instance (p s : String) : Decidable (SubStr p s) :=
  List.decidableInfix p.data s.data

/-- The string p occurs in s, as a Bool: Python's infix in operator. -/
def pyIn (p s : String) : Bool := decide (SubStr p s)

/- ===== Data model: one metric-group record per group of the Snapshot ===== -/

/-- 1/5/15 minute load averages (system group, load_avg sub-record). -/
structure LoadAvg where
  one : ℚ
  five : ℚ
  fifteen : ℚ
deriving DecidableEq

/-- The system group record built by collect_system_info. -/
structure SystemData where
  hostname : String
  fqdn : String
  os_info : String
  kernel : String
  architecture : String
  uptime : String
  uptime_seconds : ℤ
  load_avg : LoadAvg
  cpu_cores : ℤ
  timestamp : String
deriving DecidableEq

/-- One row of the top-process tables (ps aux fields are kept as strings by
the program; the command is truncated at collection time). -/
structure ProcEntry where
  user : String
  pid : String
  cpu : String
  mem : String
  command : String
deriving DecidableEq

/-- The cpu group record built by collect_cpu_metrics. -/
structure CpuData where
  usage_percent : ℚ
  model : String
  cores : ℤ
  load_avg : LoadAvg
  top_processes : List ProcEntry
deriving DecidableEq

/-- The memory group record built by collect_memory_metrics. -/
structure MemoryData where
  total_bytes : ℤ
  used_bytes : ℤ
  available_bytes : ℤ
  total_human : String
  used_human : String
  available_human : String
  usage_percent : ℚ
  swap_total_bytes : ℤ
  swap_used_bytes : ℤ
  swap_total_human : String
  swap_used_human : String
  swap_usage_percent : ℚ
  top_processes : List ProcEntry
deriving DecidableEq

/-- One filesystem entry of the disk group (df -h row plus derived status). -/
structure Filesystem where
  filesystem : String
  size : String
  used : String
  available : String
  usage_percent : ℤ
  mountpoint : String
  status : String
deriving DecidableEq

/-- One inode-usage entry of the disk group (df -i row, keyed by mountpoint). -/
structure InodeEntry where
  mountpoint : String
  total : String
  used : String
  available : String
  usage_percent : ℤ
deriving DecidableEq

/-- One large-file entry of the disk group (find over /var/log). -/
structure LargeFile where
  size : String
  date : String
  path : String
deriving DecidableEq

/-- The disk group record built by collect_disk_metrics. -/
structure DiskData where
  filesystems : List Filesystem
  inodes : List InodeEntry
  large_files : List LargeFile
deriving DecidableEq

/-- One network interface parsed from ip addr show. -/
structure Interface where
  name : String
  status : String
  addresses : List String
deriving DecidableEq

/-- The network group record built by collect_network_metrics. -/
structure NetworkData where
  interfaces : List Interface
  default_gateway : Option String
  dns_status : String
  listening_ports : ℤ
deriving DecidableEq

/-- One monitored service entry of the services group. -/
structure ServiceEntry where
  name : String
  status : String
  enabled : String
  health : String
deriving DecidableEq

/-- The services group record built by collect_service_metrics. -/
structure ServicesData where
  critical_services : List ServiceEntry
  failed_count : ℤ
deriving DecidableEq

/-- A status/health pair of the security group (selinux, firewall cards). -/
structure SecurityItem where
  status : String
  health : String
deriving DecidableEq

/-- The pending-updates card of the security group. -/
structure UpdatesItem where
  available : ℤ
  health : String
deriving DecidableEq

/-- The failed-logins card of the security group. -/
structure LoginsItem where
  count : ℤ
  health : String
deriving DecidableEq

/-- The security group record built by collect_security_metrics. -/
structure SecurityData where
  selinux : SecurityItem
  firewall : SecurityItem
  updates : UpdatesItem
  failed_logins : LoginsItem
deriving DecidableEq

/-- A metric-group slot of the Snapshot dictionary: either the group record or
the error marker dict written by a failed collector. -/
inductive GroupSlot (α : Type) where
  | ok (data : α)
  | err (msg : String)
deriving DecidableEq

/-- The Snapshot: the self.metrics dictionary; a none field models an absent
key (the corresponding collector never ran). -/
structure Snapshot where
  system : Option (GroupSlot SystemData)
  cpu : Option (GroupSlot CpuData)
  memory : Option (GroupSlot MemoryData)
  disk : Option (GroupSlot DiskData)
  network : Option (GroupSlot NetworkData)
  services : Option (GroupSlot ServicesData)
  security : Option (GroupSlot SecurityData)
deriving DecidableEq

/- ===== Collector: SystemMetrics, with every OS probe as a model input ===== -/

/-- Outcome of reading /etc/redhat-release: the code catches only
FileNotFoundError there (falling back to platform.platform()); any other
exception propagates. -/
inductive ReadResult where
  | ok (s : String)
  | notFound
  | failed (msg : String)
deriving DecidableEq

/-- One already-split line of ps aux output (user, pid, cpu, mem and the raw
untruncated command). -/
structure PsLine where
  user : String
  pid : String
  cpu : String
  mem : String
  command : String
deriving DecidableEq

/-- One already-split row of df -h output with the parsed usage percent. -/
structure DfRow where
  filesystem : String
  size : String
  used : String
  available : String
  usage_percent : ℤ
  mountpoint : String
deriving DecidableEq

/-- One service of the critical_services loop whose unit file exists on the
host (the loop silently skips the others), with its systemctl answers. -/
structure ServiceProbe where
  name : String
  status : String
  enabled : String
deriving DecidableEq

instance {e a : Type} [DecidableEq e] [DecidableEq a] : DecidableEq (Except e a) :=
  fun x y =>
    match x, y with
    | Except.ok u, Except.ok v =>
      if h : u = v then isTrue (by rw [h])
      else isFalse (by intro hh; cases hh; exact h rfl)
    | Except.ok _, Except.error _ => isFalse (by intro hh; cases hh)
    | Except.error _, Except.ok _ => isFalse (by intro hh; cases hh)
    | Except.error u, Except.error v =>
      if h : u = v then isTrue (by rw [h])
      else isFalse (by intro hh; cases hh; exact h rfl)

/-- All operating-system inputs of one collection run.  Each Except field is
the result of one file read or external command; Except.error is an exception
raised by that probe.  Parsing of well-formed command output is folded into
the probe result. -/
structure Env where
  redhat_release : ReadResult
  platform_platform : String
  hostname : String
  fqdn : String
  timestamp : String
  kernel : String
  architecture : String
  proc_uptime : Except String ℚ
  getloadavg : Except String (ℚ × ℚ × ℚ)
  cpu_count : ℤ
  proc_stat : Except String (List ℤ)
  ps_cpu : Except String (List PsLine)
  cpuinfo_model : Option String
  meminfo : Except String (List (String × ℤ))
  ps_mem : Except String (List PsLine)
  df_h : Except String (List DfRow)
  df_i : Except String (List InodeEntry)
  find_large_files : Except String (List LargeFile)
  ip_addr : Except String (List Interface)
  route_default : Except String (Option String)
  nslookup_ok : Bool
  ss_listen : Except String ℤ
  services_found : List ServiceProbe
  failed_units : Except String ℤ
  getenforce : Except String String
  firewalld_active : Bool
  iptables_active : Bool
  dnf_updates : Except String ℤ
  failed_logins_probe : Except String ℤ
deriving DecidableEq

/-- collect_system_info: the only collector without a surrounding guard; the
narrow try catches only a missing /etc/redhat-release, so an uptime or load
average failure (or any other OS-release read error) propagates to the
caller.  uptime_seconds is nonnegative so int() truncation is the floor. -/
def collect_system_info (env : Env) : Except String SystemData :=
  let os_info : Except String String :=
    match env.redhat_release with
    | ReadResult.ok s => Except.ok s
    | ReadResult.notFound => Except.ok env.platform_platform
    | ReadResult.failed e => Except.error e
  match os_info with
  | Except.error e => Except.error e
  | Except.ok osi =>
    match env.proc_uptime with
    | Except.error e => Except.error e
    | Except.ok uptime_seconds =>
      let uptime_days : ℤ := ⌊uptime_seconds / 86400⌋
      let uptime_hours : ℤ := ⌊(uptime_seconds - 86400 * uptime_days) / 3600⌋
      let uptime_str := toString uptime_days ++ "d " ++ toString uptime_hours ++ "h"
      match env.getloadavg with
      | Except.error e => Except.error e
      | Except.ok la =>
        Except.ok {
          hostname := env.hostname
          fqdn := env.fqdn
          os_info := osi
          kernel := env.kernel
          architecture := env.architecture
          uptime := uptime_str
          uptime_seconds := ⌊uptime_seconds⌋
          load_avg := { one := pyRound la.1 2, five := pyRound la.2.1 2,
                        fifteen := pyRound la.2.2 2 }
          cpu_cores := env.cpu_count
          timestamp := env.timestamp }

/-- Command truncation applied to every top-process row: the first 50
characters, with an ellipsis marker when the command is longer. -/
def truncate_command (c : String) : String :=
  String.mk (c.data.take 50) ++ (if c.data.length > 50 then "..." else "")

/-- Build one top-process table entry from a ps aux line. -/
def psEntry (p : PsLine) : ProcEntry :=
  { user := p.user, pid := p.pid, cpu := p.cpu, mem := p.mem,
    command := truncate_command p.command }

/-- collect_cpu_metrics: guarded; usage percent from one read of the
aggregate /proc/stat counters, idle being the fourth column. -/
def collect_cpu_metrics (env : Env) (sys : SystemData) : GroupSlot CpuData :=
  match env.proc_stat with
  | Except.error e => GroupSlot.err e
  | Except.ok cpu_times =>
    match cpu_times.get? 3 with
    | none => GroupSlot.err "list index out of range"
    | some idle_time =>
      let total_time : ℤ := cpu_times.sum
      match pydiv ((total_time : ℚ) - (idle_time : ℚ)) (total_time : ℚ) with
      | Except.error e => GroupSlot.err e
      | Except.ok frac =>
        match env.ps_cpu with
        | Except.error e => GroupSlot.err e
        | Except.ok lines =>
          GroupSlot.ok {
            usage_percent := pyRound (frac * 100) 1
            model := env.cpuinfo_model.getD "Unknown"
            cores := sys.cpu_cores
            load_avg := sys.load_avg
            top_processes := lines.map psEntry }

/-- Memory usage percent: round((total − available) / total × 100, 1); a zero
total raises ZeroDivisionError (caught by the group guard). -/
def mem_usage_percent (total_mem available_mem : ℤ) : Except String ℚ :=
  match pydiv ((total_mem : ℚ) - (available_mem : ℚ)) (total_mem : ℚ) with
  | Except.error e => Except.error e
  | Except.ok q => Except.ok (pyRound (q * 100) 1)

/-- Swap usage percent: the division is guarded by swap_total > 0 and the
percent is the literal 0 otherwise. -/
def swap_usage_percent (swap_total swap_free : ℤ) : Except String ℚ :=
  if swap_total > 0 then
    match pydiv ((swap_total : ℚ) - (swap_free : ℚ)) (swap_total : ℚ) with
    | Except.error e => Except.error e
    | Except.ok q => Except.ok (pyRound (q * 100) 1)
  else Except.ok 0

/-- collect_memory_metrics: guarded; /proc/meminfo values arrive in KiB and
are scaled by 1024.  Python evaluates mem_info['MemFree'] eagerly as the
get default, so a missing MemFree raises even when MemAvailable exists. -/
def collect_memory_metrics (env : Env) : GroupSlot MemoryData :=
  match env.meminfo with
  | Except.error e => GroupSlot.err e
  | Except.ok meminfo_kb =>
    let mem_info : String → Option ℤ := fun k => (meminfo_kb.lookup k).map (· * 1024)
    match mem_info "MemTotal" with
    | none => GroupSlot.err "KeyError: \x27MemTotal\x27"
    | some total_mem =>
      match mem_info "MemFree" with
      | none => GroupSlot.err "KeyError: \x27MemFree\x27"
      | some memfree =>
        let available_mem := (mem_info "MemAvailable").getD memfree
        let used_mem := total_mem - available_mem
        match mem_usage_percent total_mem available_mem with
        | Except.error e => GroupSlot.err e
        | Except.ok musage =>
          let swap_total := (mem_info "SwapTotal").getD 0
          let swap_free := (mem_info "SwapFree").getD 0
          let swap_used := swap_total - swap_free
          match swap_usage_percent swap_total swap_free with
          | Except.error e => GroupSlot.err e
          | Except.ok susage =>
            match env.ps_mem with
            | Except.error e => GroupSlot.err e
            | Except.ok lines =>
              GroupSlot.ok {
                total_bytes := total_mem
                used_bytes := used_mem
                available_bytes := available_mem
                total_human := bytes_to_human (total_mem : ℚ)
                used_human := bytes_to_human (used_mem : ℚ)
                available_human := bytes_to_human (available_mem : ℚ)
                usage_percent := musage
                swap_total_bytes := swap_total
                swap_used_bytes := swap_used
                swap_total_human := bytes_to_human (swap_total : ℚ)
                swap_used_human := bytes_to_human (swap_used : ℚ)
                swap_usage_percent := susage
                top_processes := lines.map psEntry }

/-- Per-filesystem derived status (collect_disk_metrics line 210): critical
at 90 percent and above, warning at 80 and above, ok below. -/
def disk_usage_status (usage_percent : ℤ) : String :=
  if usage_percent ≥ 90 then "critical"
  else if usage_percent ≥ 80 then "warning"
  else "ok"

/-- Turn one df -h row into the stored filesystem entry. -/
def dfRowToFilesystem (r : DfRow) : Filesystem :=
  { filesystem := r.filesystem, size := r.size, used := r.used,
    available := r.available, usage_percent := r.usage_percent,
    mountpoint := r.mountpoint, status := disk_usage_status r.usage_percent }

/-- collect_disk_metrics: guarded; the large-file search has its own inner
try whose failure leaves the list empty. -/
def collect_disk_metrics (env : Env) : GroupSlot DiskData :=
  match env.df_h with
  | Except.error e => GroupSlot.err e
  | Except.ok rows =>
    let filesystems := rows.map dfRowToFilesystem
    match env.df_i with
    | Except.error e => GroupSlot.err e
    | Except.ok inode_rows =>
      let large_files :=
        match env.find_large_files with
        | Except.error _ => []
        | Except.ok l => l
      GroupSlot.ok { filesystems := filesystems, inodes := inode_rows,
                     large_files := large_files }

/-- collect_network_metrics: guarded; the default-gateway probe has its own
inner try (leaving None), the DNS probe maps failure to the failed status,
and a failing listening-port count fails the whole group. -/
def collect_network_metrics (env : Env) : GroupSlot NetworkData :=
  match env.ip_addr with
  | Except.error e => GroupSlot.err e
  | Except.ok interfaces =>
    let default_gw : Option String :=
      match env.route_default with
      | Except.error _ => none
      | Except.ok o => o
    let dns_status := if env.nslookup_ok then "ok" else "failed"
    match env.ss_listen with
    | Except.error e => GroupSlot.err e
    | Except.ok listening_ports =>
      GroupSlot.ok { interfaces := interfaces, default_gateway := default_gw,
                     dns_status := dns_status, listening_ports := listening_ports }

/-- collect_service_metrics: every probe sits inside an inner try (missing
services are skipped, a failing failed-units count defaults to 0), so the
group record is always built. -/
def collect_service_metrics (env : Env) : GroupSlot ServicesData :=
  let services_status : List ServiceEntry := env.services_found.map (fun p =>
    { name := p.name, status := p.status, enabled := p.enabled,
      health := if p.status = "active" then "ok" else "critical" })
  let failed_services : ℤ :=
    match env.failed_units with
    | Except.error _ => 0
    | Except.ok n => n
  GroupSlot.ok { critical_services := services_status, failed_count := failed_services }

/-- collect_security_metrics: every probe has an inner try with a fallback, so
the group record is always built.  Note the firewall health test is the
Python substring test 'active' in status, which also matches "inactive". -/
def collect_security_metrics (env : Env) : GroupSlot SecurityData :=
  let selinux : SecurityItem :=
    match env.getenforce with
    | Except.ok s => { status := s, health := if s = "Enforcing" then "ok" else "warning" }
    | Except.error _ => { status := "Not available", health := "unknown" }
  let firewall_status :=
    if env.firewalld_active then "active (firewalld)"
    else if env.iptables_active then "active (iptables)"
    else "inactive"
  let firewall : SecurityItem :=
    { status := firewall_status,
      health := if pyIn "active" firewall_status then "ok" else "warning" }
  let updates_count : ℤ :=
    match env.dnf_updates with
    | Except.error _ => 0
    | Except.ok n => n
  let failed_logins : ℤ :=
    match env.failed_logins_probe with
    | Except.error _ => 0
    | Except.ok n => n
  GroupSlot.ok {
    selinux := selinux
    firewall := firewall
    updates := { available := updates_count,
                 health := if updates_count = 0 then "ok" else "warning" }
    failed_logins := { count := failed_logins,
                       health := if failed_logins < 10 then "ok" else "warning" } }

/-- collect_all_metrics: runs collect_system_info first and unguarded, then
every guarded group collector in order; an exception from collect_system_info
aborts the whole collection before any group is stored. -/
def collect_all_metrics (env : Env) : Except String Snapshot :=
  match collect_system_info env with
  | Except.error e => Except.error e
  | Except.ok sys =>
    Except.ok {
      system := some (GroupSlot.ok sys)
      cpu := some (collect_cpu_metrics env sys)
      memory := some (collect_memory_metrics env)
      disk := some (collect_disk_metrics env)
      network := some (collect_network_metrics env)
      services := some (collect_service_metrics env)
      security := some (collect_security_metrics env) }

/- ===== Renderer: HTMLReportGenerator ===== -/

/- Literal text of the HTML template and of each section template, exactly as
in the source (format-string brace escapes already applied); a numbered chunk
is the text between two interpolation points. -/

def tpl_0 : String := "\n<!DOCTYPE html>\n<html lang=\"en\">\n<head>\n    <meta charset=\"UTF-8\">\n    <meta name=\"viewport\" content=\"width=device-width, initial-scale=1.0\">\n    <title>System Health Dashboard - "
def tpl_1 : String := "</title>\n    <style>\n        * \x7b\n            margin: 0;\n            padding: 0;\n            box-sizing: border-box;\n        \x7d\n        \n        body \x7b\n            font-family: \x27Segoe UI\x27, Tahoma, Geneva, Verdana, sans-serif;\n            background: linear-gradient(135deg, #667eea 0%, #764ba2 100%);\n            min-height: 100vh;\n            padding: 20px;\n        \x7d\n        \n        .dashboard \x7b\n            max-width: 1400px;\n            margin: 0 auto;\n            background: white;\n            border-radius: 20px;\n            box-shadow: 0 20px 60px rgba(0,0,0,0.1);\n            overflow: hidden;\n        \x7d\n        \n        .header \x7b\n            background: linear-gradient(135deg, #2c3e50 0%, #34495e 100%);\n            color: white;\n            padding: 30px;\n            text-align: center;\n        \x7d\n        \n        .header h1 \x7b\n            font-size: 2.5em;\n            margin-bottom: 10px;\n            font-weight: 300;\n        \x7d\n        \n        .header .subtitle \x7b\n            font-size: 1.2em;\n            opacity: 0.8;\n        \x7d\n        \n        .content \x7b\n            padding: 30px;\n        \x7d\n        \n        .metrics-grid \x7b\n            display: grid;\n            grid-template-columns: repeat(auto-fit, minmax(300px, 1fr));\n            gap: 25px;\n            margin-bottom: 30px;\n        \x7d\n        \n        .metric-card \x7b\n            background: #f8f9fa;\n            border-radius: 15px;\n            padding: 25px;\n            box-shadow: 0 5px 15px rgba(0,0,0,0.05);\n            transition: transform 0.3s ease;\n        \x7d\n        \n        .metric-card:hover \x7b\n            transform: translateY(-5px);\n        \x7d\n        \n        .metric-card h3 \x7b\n            color: #2c3e50;\n            margin-bottom: 20px;\n            font-size: 1.3em;\n            border-bottom: 2px solid #3498db;\n            padding-bottom: 10px;\n        \x7d\n        \n        .metric-value \x7b\n            font-size: 2.5em;\n            font-weight: bold;\n            margin-bottom: 10px;\n        \x7d\n        \n        .metric-label \x7b\n            color: #7f8c8d;\n            font-size: 0.9em;\n            text-transform: uppercase;\n            letter-spacing: 1px;\n        \x7d\n        \n        .status-ok \x7b color: #27ae60; \x7d\n        .status-warning \x7b color: #f39c12; \x7d\n        .status-critical \x7b color: #e74c3c; \x7d\n        \n        .progress-bar \x7b\n            width: 100%;\n            height: 20px;\n            background: #ecf0f1;\n            border-radius: 10px;\n            overflow: hidden;\n            margin: 10px 0;\n        \x7d\n        \n        .progress-fill \x7b\n            height: 100%;\n            border-radius: 10px;\n            transition: width 0.3s ease;\n        \x7d\n        \n        .progress-ok \x7b background: linear-gradient(90deg, #27ae60, #2ecc71); \x7d\n        .progress-warning \x7b background: linear-gradient(90deg, #f39c12, #e67e22); \x7d\n        .progress-critical \x7b background: linear-gradient(90deg, #e74c3c, #c0392b); \x7d\n        \n        .table \x7b\n            width: 100%;\n            border-collapse: collapse;\n            margin-top: 15px;\n        \x7d\n        \n        .table th, .table td \x7b\n            padding: 12px;\n            text-align: left;\n            border-bottom: 1px solid #ecf0f1;\n        \x7d\n        \n        .table th \x7b\n            background: #3498db;\n            color: white;\n            font-weight: 600;\n        \x7d\n        \n        .table tr:hover \x7b\n            background: #f8f9fa;\n        \x7d\n        \n        .alert \x7b\n            padding: 15px;\n            border-radius: 10px;\n            margin: 15px 0;\n        \x7d\n        \n        .alert-success \x7b\n            background: #d4edda;\n            border-left: 4px solid #27ae60;\n            color: #155724;\n        \x7d\n        \n        .alert-warning \x7b\n            background: #fff3cd;\n            border-left: 4px solid #f39c12;\n            color: #856404;\n        \x7d\n        \n        .alert-danger \x7b\n            background: #f8d7da;\n            border-left: 4px solid #e74c3c;\n            color: #721c24;\n        \x7d\n        \n        .footer \x7b\n            background: #2c3e50;\n            color: white;\n            text-align: center;\n            padding: 20px;\n            font-size: 0.9em;\n        \x7d\n        \n        @media (max-width: 768px) \x7b\n            .metrics-grid \x7b\n                grid-template-columns: 1fr;\n            \x7d\n            \n            .header h1 \x7b\n                font-size: 2em;\n            \x7d\n            \n            .content \x7b\n                padding: 20px;\n            \x7d\n        \x7d\n    </style>\n</head>\n<body>\n    <div class=\"dashboard\">\n        <div class=\"header\">\n            <h1>🖥️ System Health Dashboard</h1>\n            <div class=\"subtitle\">\n                "
def tpl_2 : String := " | "
def tpl_3 : String := "\n            </div>\n        </div>\n        \n        <div class=\"content\">\n            "
def tpl_4 : String := "\n            "
def tpl_5 : String := "\n            "
def tpl_6 : String := "\n            "
def tpl_7 : String := "\n            "
def tpl_8 : String := "\n            "
def tpl_9 : String := "\n        </div>\n        \n        <div class=\"footer\">\n            Generated by Enterprise Linux Toolkit | © 2024 Gabriel - Senior Linux Systems Administrator\n        </div>\n    </div>\n</body>\n</html>\n        "
-- placeholders for tpl: hostname | hostname | timestamp | system_overview | performance_metrics | disk_analysis | network_status | security_status | services_status

def ov_0 : String := "\n        <div class=\"alert alert-"
def ov_1 : String := "\">\n            <strong>Overall System Health: <span class=\""
def ov_2 : String := "\">"
def ov_3 : String := "</span></strong>\n            "
def ov_4 : String := "\n        </div>\n        \n        <div class=\"metrics-grid\">\n            <div class=\"metric-card\">\n                <h3>📊 System Information</h3>\n                <div style=\"line-height: 1.8;\">\n                    <strong>OS:</strong> "
def ov_5 : String := "<br>\n                    <strong>Kernel:</strong> "
def ov_6 : String := "<br>\n                    <strong>Architecture:</strong> "
def ov_7 : String := "<br>\n                    <strong>Uptime:</strong> "
def ov_8 : String := " ("
def ov_9 : String := " days)<br>\n                    <strong>CPU Cores:</strong> "
def ov_10 : String := "\n                </div>\n            </div>\n            \n            <div class=\"metric-card\">\n                <h3>⚡ Load Average</h3>\n                <div class=\"metric-value "
def ov_11 : String := "\">"
def ov_12 : String := "</div>\n                <div class=\"metric-label\">1 Minute Average</div>\n                <div style=\"margin-top: 15px; font-size: 0.9em;\">\n                    5min: "
def ov_13 : String := " | 15min: "
def ov_14 : String := "\n                </div>\n            </div>\n        </div>\n        "
-- placeholders for ov: 'success' if overall_health == 'ok' else 'warning' if overall_health == 'warning' else 'danger' | health_class | health_text | ('<br>Issues: ' + ', '.join(health_issues)) if health_issues else '<br>All systems operating normally' | system['os_info'] | system['kernel'] | system['architecture'] | system['uptime'] | uptime_days | system['cpu_cores'] | self._get_load_status(system['load_avg']['1min'], system['cpu_cores']) | system['load_avg']['1min'] | system['load_avg']['5min'] | system['load_avg']['15min']

def perf_0 : String := "\n        <h2 style=\"margin: 30px 0 20px 0; color: #2c3e50;\">🚀 Performance Metrics</h2>\n        \n        <div class=\"metrics-grid\">\n            <div class=\"metric-card\">\n                <h3>💻 CPU Usage</h3>\n                <div class=\"metric-value status-"
def perf_1 : String := "\">"
def perf_2 : String := "%</div>\n                <div class=\"progress-bar\">\n                    <div class=\"progress-fill progress-"
def perf_3 : String := "\" style=\"width: "
def perf_4 : String := "%\"></div>\n                </div>\n                <div class=\"metric-label\">Processor Utilization</div>\n                "
def perf_5 : String := "\n            </div>\n            \n            <div class=\"metric-card\">\n                <h3>🧠 Memory Usage</h3>\n                <div class=\"metric-value status-"
def perf_6 : String := "\">"
def perf_7 : String := "%</div>\n                <div class=\"progress-bar\">\n                    <div class=\"progress-fill progress-"
def perf_8 : String := "\" style=\"width: "
def perf_9 : String := "%\"></div>\n                </div>\n                <div class=\"metric-label\">RAM Utilization</div>\n                <div style=\"margin-top: 10px; font-size: 0.9em;\">\n                    Used: "
def perf_10 : String := " / Total: "
def perf_11 : String := "\n                </div>\n                "
def perf_12 : String := "\n            </div>\n            \n            <div class=\"metric-card\">\n                <h3>💾 Swap Usage</h3>\n                <div class=\"metric-value status-"
def perf_13 : String := "\">"
def perf_14 : String := "%</div>\n                <div class=\"progress-bar\">\n                    <div class=\"progress-fill progress-"
def perf_15 : String := "\" style=\"width: "
def perf_16 : String := "%\"></div>\n                </div>\n                <div class=\"metric-label\">Swap Utilization</div>\n                <div style=\"margin-top: 10px; font-size: 0.9em;\">\n                    Used: "
def perf_17 : String := " / Total: "
def perf_18 : String := "\n                </div>\n            </div>\n        </div>\n        "
-- placeholders for perf: cpu_status | cpu_usage | cpu_status | cpu_usage | self._generate_top_processes_table(cpu.get('top_processes', []), 'CPU') | memory_status | memory_usage | memory_status | memory_usage | memory.get('used_human', 'N/A') | memory.get('total_human', 'N/A') | self._generate_top_processes_table(memory.get('top_processes', []), 'Memory') | swap_status | swap_usage | swap_status | swap_usage | memory.get('swap_used_human', 'N/A') | memory.get('swap_total_human', 'N/A')

def diskhead_0 : String := "\n        <h2 style=\"margin: 30px 0 20px 0; color: #2c3e50;\">💽 Disk Space Analysis</h2>\n        \n        <div class=\"metric-card\">\n            <h3>📁 Filesystem Usage</h3>\n        "
-- placeholders for diskhead: 

def disktable_0 : String := "<table class=\"table\">\n            <thead>\n                <tr>\n                    <th>Filesystem</th>\n                    <th>Size</th>\n                    <th>Used</th>\n                    <th>Available</th>\n                    <th>Usage</th>\n                    <th>Mountpoint</th>\n                    <th>Status</th>\n                </tr>\n            </thead>\n            <tbody>\n            "
-- placeholders for disktable: 

def diskrow_0 : String := "\n                <tr>\n                    <td>"
def diskrow_1 : String := "</td>\n                    <td>"
def diskrow_2 : String := "</td>\n                    <td>"
def diskrow_3 : String := "</td>\n                    <td>"
def diskrow_4 : String := "</td>\n                    <td>\n                        <div class=\"progress-bar\" style=\"width: 100px; height: 15px;\">\n                            <div class=\"progress-fill progress-"
def diskrow_5 : String := "\" style=\"width: "
def diskrow_6 : String := "%\"></div>\n                        </div>\n                        <span class=\""
def diskrow_7 : String := "\">"
def diskrow_8 : String := "%</span>\n                    </td>\n                    <td>"
def diskrow_9 : String := "</td>\n                    <td><span class=\""
def diskrow_10 : String := "\">●</span></td>\n                </tr>\n                "
-- placeholders for diskrow: fs['filesystem'] | fs['size'] | fs['used'] | fs['available'] | fs['status'] | fs['usage_percent'] | status_class | fs['usage_percent'] | fs['mountpoint'] | status_class

def disklarge_0 : String := "\n            <h4 style=\"margin-top: 25px; color: #34495e;\">🗂️ Large Files (>100MB in /var/log)</h4>\n            <table class=\"table\">\n                <thead>\n                    <tr>\n                        <th>Size</th>\n                        <th>Date Modified</th>\n                        <th>File Path</th>\n                    </tr>\n                </thead>\n                <tbody>\n            "
-- placeholders for disklarge: 

def disklargerow_0 : String := "\n                <tr>\n                    <td>"
def disklargerow_1 : String := "</td>\n                    <td>"
def disklargerow_2 : String := "</td>\n                    <td style=\"font-family: monospace; font-size: 0.9em;\">"
def disklargerow_3 : String := "</td>\n                </tr>\n                "
-- placeholders for disklargerow: file['size'] | file['date'] | file['path']

def nethead_0 : String := "\n        <h2 style=\"margin: 30px 0 20px 0; color: #2c3e50;\">🌐 Network Status</h2>\n        \n        <div class=\"metrics-grid\">\n            <div class=\"metric-card\">\n                <h3>🔗 Network Interfaces</h3>\n        "
-- placeholders for nethead: 

def netif_0 : String := "\n                <div style=\"margin-bottom: 15px; padding: 10px; background: #f8f9fa; border-radius: 8px;\">\n                    <strong>"
def netif_1 : String := "</strong> \n                    <span class=\""
def netif_2 : String := "\">("
def netif_3 : String := ")</span><br>\n                    <small style=\"color: #7f8c8d;\">"
def netif_4 : String := "</small>\n                </div>\n                "
-- placeholders for netif: interface['name'] | status_class | interface['status'] | addresses

def netconn_0 : String := "\n            <div class=\"metric-card\">\n                <h3>🔌 Connectivity Status</h3>\n                <div style=\"line-height: 2;\">\n                    <strong>Default Gateway:</strong> \n                    <span class=\""
def netconn_1 : String := "\">"
def netconn_2 : String := "</span><br>\n                    \n                    <strong>DNS Resolution:</strong> \n                    <span class=\"status-"
def netconn_3 : String := "\">"
def netconn_4 : String := "</span><br>\n                    \n                    <strong>Listening Services:</strong> \n                    <span class=\"status-ok\">"
def netconn_5 : String := " ports</span>\n                </div>\n            </div>\n        </div>\n        "
-- placeholders for netconn: "status-ok" if default_gw else "status-warning" | default_gw or "Not configured" | dns_status | "Working" if dns_status == "ok" else "Failed" | listening_ports

def sechead_0 : String := "\n        <h2 style=\"margin: 30px 0 20px 0; color: #2c3e50;\">🔒 Security Status</h2>\n        \n        <div class=\"metrics-grid\">\n        "
-- placeholders for sechead: 

def secselinux_0 : String := "\n            <div class=\"metric-card\">\n                <h3>🛡️ SELinux Status</h3>\n                <div class=\"metric-value status-"
def secselinux_1 : String := "\">"
def secselinux_2 : String := "</div>\n                <div class=\"metric-label\">Mandatory Access Control</div>\n            </div>\n        "
-- placeholders for secselinux: selinux_health | selinux_status

def secfirewall_0 : String := "\n            <div class=\"metric-card\">\n                <h3>🔥 Firewall Status</h3>\n                <div class=\"metric-value status-"
def secfirewall_1 : String := "\">"
def secfirewall_2 : String := "</div>\n                <div class=\"metric-label\">Network Protection</div>\n            </div>\n        "
-- placeholders for secfirewall: firewall_health | firewall_status

def secupdates_0 : String := "\n            <div class=\"metric-card\">\n                <h3>📦 System Updates</h3>\n                <div class=\"metric-value status-"
def secupdates_1 : String := "\">"
def secupdates_2 : String := "</div>\n                <div class=\"metric-label\">Available Updates</div>\n            </div>\n        "
-- placeholders for secupdates: updates_health | updates_count

def seclogins_0 : String := "\n            <div class=\"metric-card\">\n                <h3>🚫 Failed Logins</h3>\n                <div class=\"metric-value status-"
def seclogins_1 : String := "\">"
def seclogins_2 : String := "</div>\n                <div class=\"metric-label\">Last 24 Hours</div>\n            </div>\n        </div>\n        "
-- placeholders for seclogins: login_health | login_count

def svchead_0 : String := "\n        <h2 style=\"margin: 30px 0 20px 0; color: #2c3e50;\">⚙️ System Services</h2>\n        \n        <div class=\"alert alert-"
def svchead_1 : String := "\">\n            <strong>Service Status Summary:</strong> \n            "
def svchead_2 : String := " critical services monitored, "
def svchead_3 : String := " failed services detected\n        </div>\n        \n        <div class=\"metric-card\">\n            <h3>🔧 Critical Services Status</h3>\n        "
-- placeholders for svchead: 'success' if failed_count == 0 else 'warning' | len(critical_services) | failed_count

def svctable_0 : String := "\n            <table class=\"table\">\n                <thead>\n                    <tr>\n                        <th>Service</th>\n                        <th>Status</th>\n                        <th>Enabled</th>\n                        <th>Health</th>\n                    </tr>\n                </thead>\n                <tbody>\n            "
-- placeholders for svctable: 

def svcrow_0 : String := "\n                <tr>\n                    <td><strong>"
def svcrow_1 : String := "</strong></td>\n                    <td><span class=\""
def svcrow_2 : String := "\">"
def svcrow_3 : String := "</span></td>\n                    <td><span class=\""
def svcrow_4 : String := "\">"
def svcrow_5 : String := "</span></td>\n                    <td><span class=\""
def svcrow_6 : String := "\">●</span></td>\n                </tr>\n                "
-- placeholders for svcrow: service['name'] | status_class | service['status'] | enabled_class | service['enabled'] | status_class

def prochead_0 : String := "\n        <h4 style=\"margin-top: 20px; color: #34495e;\">Top "
def prochead_1 : String := " Processes</h4>\n        <table class=\"table\">\n            <thead>\n                <tr>\n                    <th>User</th>\n                    <th>PID</th>\n                    <th>CPU%</th>\n                    <th>MEM%</th>\n                    <th>Command</th>\n                </tr>\n            </thead>\n            <tbody>\n        "
-- placeholders for prochead: metric_type

def procrow_0 : String := "\n            <tr>\n                <td>"
def procrow_1 : String := "</td>\n                <td>"
def procrow_2 : String := "</td>\n                <td>"
def procrow_3 : String := "</td>\n                <td>"
def procrow_4 : String := "</td>\n                <td style=\"font-family: monospace; font-size: 0.8em;\">"
def procrow_5 : String := "</td>\n            </tr>\n            "
-- placeholders for procrow: process['user'] | process['pid'] | process['cpu'] | process['mem'] | process['command']

/- Dictionary-get accessors of the Renderer: metrics.get(group, default dict)
followed by .get(field, default); an absent group and an error-marker group
both fall back to the default. -/

/-- cpu usage percent as read by the Renderer (.get default 0). -/
def cpu_usage_percent_get (s : Snapshot) : ℚ :=
  match s.cpu with
  | some (GroupSlot.ok d) => d.usage_percent
  | _ => 0

/-- cpu top-process list as read by the Renderer (.get default empty). -/
def cpu_top_processes_get (s : Snapshot) : List ProcEntry :=
  match s.cpu with
  | some (GroupSlot.ok d) => d.top_processes
  | _ => []

/-- memory usage percent as read by the Renderer (.get default 0). -/
def memory_usage_percent_get (s : Snapshot) : ℚ :=
  match s.memory with
  | some (GroupSlot.ok d) => d.usage_percent
  | _ => 0

/-- swap usage percent as read by the Renderer (.get default 0). -/
def memory_swap_usage_percent_get (s : Snapshot) : ℚ :=
  match s.memory with
  | some (GroupSlot.ok d) => d.swap_usage_percent
  | _ => 0

/-- memory used_human as read by the Renderer (.get default N/A). -/
def memory_used_human_get (s : Snapshot) : String :=
  match s.memory with
  | some (GroupSlot.ok d) => d.used_human
  | _ => "N/A"

/-- memory total_human as read by the Renderer (.get default N/A). -/
def memory_total_human_get (s : Snapshot) : String :=
  match s.memory with
  | some (GroupSlot.ok d) => d.total_human
  | _ => "N/A"

/-- swap used_human as read by the Renderer (.get default N/A). -/
def memory_swap_used_human_get (s : Snapshot) : String :=
  match s.memory with
  | some (GroupSlot.ok d) => d.swap_used_human
  | _ => "N/A"

/-- swap total_human as read by the Renderer (.get default N/A). -/
def memory_swap_total_human_get (s : Snapshot) : String :=
  match s.memory with
  | some (GroupSlot.ok d) => d.swap_total_human
  | _ => "N/A"

/-- memory top-process list as read by the Renderer (.get default empty). -/
def memory_top_processes_get (s : Snapshot) : List ProcEntry :=
  match s.memory with
  | some (GroupSlot.ok d) => d.top_processes
  | _ => []

/-- filesystem list as read by the Renderer (.get default empty). -/
def disk_filesystems_get (s : Snapshot) : List Filesystem :=
  match s.disk with
  | some (GroupSlot.ok d) => d.filesystems
  | _ => []

/-- large-file list as read by the Renderer (.get default empty). -/
def disk_large_files_get (s : Snapshot) : List LargeFile :=
  match s.disk with
  | some (GroupSlot.ok d) => d.large_files
  | _ => []

/-- interface list as read by the Renderer (.get default empty). -/
def network_interfaces_get (s : Snapshot) : List Interface :=
  match s.network with
  | some (GroupSlot.ok d) => d.interfaces
  | _ => []

/-- default gateway as read by the Renderer (.get default None). -/
def network_default_gateway_get (s : Snapshot) : Option String :=
  match s.network with
  | some (GroupSlot.ok d) => d.default_gateway
  | _ => none

/-- dns status as read by the Renderer (.get default unknown). -/
def network_dns_status_get (s : Snapshot) : String :=
  match s.network with
  | some (GroupSlot.ok d) => d.dns_status
  | _ => "unknown"

/-- listening-port count as read by the Renderer (.get default 0). -/
def network_listening_ports_get (s : Snapshot) : ℤ :=
  match s.network with
  | some (GroupSlot.ok d) => d.listening_ports
  | _ => 0

/-- monitored-service list as read by the Renderer (.get default empty). -/
def services_critical_get (s : Snapshot) : List ServiceEntry :=
  match s.services with
  | some (GroupSlot.ok d) => d.critical_services
  | _ => []

/-- failed-unit count as read by the Renderer (.get default 0). -/
def services_failed_count_get (s : Snapshot) : ℤ :=
  match s.services with
  | some (GroupSlot.ok d) => d.failed_count
  | _ => 0

/-- selinux card as read by the Renderer (.get defaults Unknown/unknown). -/
def security_selinux_get (s : Snapshot) : SecurityItem :=
  match s.security with
  | some (GroupSlot.ok d) => d.selinux
  | _ => { status := "Unknown", health := "unknown" }

/-- firewall card as read by the Renderer (.get defaults Unknown/unknown). -/
def security_firewall_get (s : Snapshot) : SecurityItem :=
  match s.security with
  | some (GroupSlot.ok d) => d.firewall
  | _ => { status := "Unknown", health := "unknown" }

/-- updates card as read by the Renderer (.get defaults 0/unknown). -/
def security_updates_get (s : Snapshot) : UpdatesItem :=
  match s.security with
  | some (GroupSlot.ok d) => d.updates
  | _ => { available := 0, health := "unknown" }

/-- failed-logins card as read by the Renderer (.get defaults 0/unknown). -/
def security_failed_logins_get (s : Snapshot) : LoginsItem :=
  match s.security with
  | some (GroupSlot.ok d) => d.failed_logins
  | _ => { count := 0, health := "unknown" }

/-- The cpu condition of the overall-health block: 'cpu' in metrics and
metrics['cpu'].get('usage_percent', 0) > 80 (the 0 default never exceeds 80). -/
def cpu_check (s : Snapshot) : Bool :=
  match s.cpu with
  | none => false
  | some (GroupSlot.ok d) => decide (d.usage_percent > 80)
  | some (GroupSlot.err _) => false

/-- The memory condition of the overall-health block: 'memory' in metrics and
metrics['memory'].get('usage_percent', 0) > 85. -/
def memory_check (s : Snapshot) : Bool :=
  match s.memory with
  | none => false
  | some (GroupSlot.ok d) => decide (d.usage_percent > 85)
  | some (GroupSlot.err _) => false

/-- One iteration of the filesystem loop of the overall-health block: a
filesystem strictly above 90 percent forces critical and appends its issue. -/
def overview_health_step (p : String × List String) (fs : Filesystem) :
    String × List String :=
  if fs.usage_percent > 90 then
    ("critical", p.2 ++ ["Critical disk space on " ++ fs.mountpoint])
  else p

/-- The overall health and issue list computed at the top of
_generate_system_overview, in the order the source assigns them. -/
def overallHealthPair (s : Snapshot) : String × List String :=
  let p0 : String × List String := ("ok", [])
  let p1 := if cpu_check s then ("warning", p0.2 ++ ["High CPU usage"]) else p0
  let p2 := if memory_check s then ("warning", p1.2 ++ ["High memory usage"]) else p1
  (disk_filesystems_get s).foldl overview_health_step p2

/-- _get_usage_status with explicit thresholds (the source defaults are
warning=75, critical=90; the swap call passes 25 and 50). -/
def get_usage_status (usage warning critical : ℚ) : String :=
  if usage ≥ critical then "critical"
  else if usage ≥ warning then "warning"
  else "ok"

/-- _get_load_status: normalizes the 1-minute load by the core count; a zero
core count raises ZeroDivisionError (uncaught in the Renderer). -/
def get_load_status (load_avg : ℚ) (cpu_cores : ℤ) : Except String String :=
  if (cpu_cores : ℚ) = 0 then Except.error "ZeroDivisionError"
  else
    let normalized_load := load_avg / (cpu_cores : ℚ)
    Except.ok
      (if normalized_load ≥ 2 then "status-critical"
       else if normalized_load ≥ 1 then "status-warning"
       else "status-ok")

/-- The += accumulation loop of the renderer: concatenate one rendered piece
per list element, in order. -/
def strConcatMap (f : a → String) : List a → String
  | [] => ""
  | x :: xs => f x ++ strConcatMap f xs

/-- _generate_top_processes_table: empty input yields the empty string, else a
table over the first five entries; interpolation is verbatim, unescaped. -/
def generate_top_processes_table (processes : List ProcEntry)
    (metric_type : String) : String :=
  if processes.isEmpty then ""
  else
    prochead_0 ++ metric_type ++ prochead_1
      ++ strConcatMap (fun process =>
          procrow_0 ++ process.user ++ procrow_1 ++ process.pid ++ procrow_2
            ++ process.cpu ++ procrow_3 ++ process.mem ++ procrow_4
            ++ process.command ++ procrow_5) (processes.take 5)
      ++ "</tbody></table>"

/-- The Except.ok payload of _generate_system_overview for a well-formed
system group and an already-computed load-status class. -/
def overview_body (s : Snapshot) (system : SystemData) (load_status : String) : String :=
  let uptime_days : ℤ := system.uptime_seconds / 86400
  let hp := overallHealthPair s
  let overall_health := hp.1
  let health_issues := hp.2
  let health_class := "status-" ++ overall_health
  let health_text :=
    if overall_health = "ok" then "Excellent"
    else if overall_health = "warning" then "Needs Attention"
    else "Critical Issues"
  ov_0
    ++ (if overall_health = "ok" then "success"
        else if overall_health = "warning" then "warning" else "danger")
    ++ ov_1 ++ health_class ++ ov_2 ++ health_text ++ ov_3
    ++ (if health_issues.isEmpty then "<br>All systems operating normally"
        else "<br>Issues: " ++ String.intercalate ", " health_issues)
    ++ ov_4 ++ system.os_info ++ ov_5 ++ system.kernel ++ ov_6
    ++ system.architecture ++ ov_7 ++ system.uptime ++ ov_8
    ++ toString uptime_days ++ ov_9 ++ toString system.cpu_cores ++ ov_10
    ++ load_status ++ ov_11 ++ floatStr system.load_avg.one ++ ov_12
    ++ floatStr system.load_avg.five ++ ov_13
    ++ floatStr system.load_avg.fifteen ++ ov_14

/-- _generate_system_overview: reads metrics['system'] without a guard, so an
absent or error-marker system group raises KeyError; uptime_seconds is
nonnegative so the // 86400 of the source is integer division here. -/
def generate_system_overview (s : Snapshot) : Except String String :=
  match s.system with
  | none => Except.error "KeyError: \x27system\x27"
  | some (GroupSlot.err _) => Except.error "KeyError: \x27uptime_seconds\x27"
  | some (GroupSlot.ok system) =>
    match get_load_status system.load_avg.one system.cpu_cores with
    | Except.error e => Except.error e
    | Except.ok load_status => Except.ok (overview_body s system load_status)

/-- _generate_performance_metrics: pure string build from dictionary gets
with defaults (an absent or failed group renders as 0 percent). -/
def generate_performance_metrics (s : Snapshot) : String :=
  let cpu_usage := cpu_usage_percent_get s
  let cpu_status := get_usage_status cpu_usage 75 90
  let memory_usage := memory_usage_percent_get s
  let memory_status := get_usage_status memory_usage 75 90
  let swap_usage := memory_swap_usage_percent_get s
  let swap_status := get_usage_status swap_usage 25 50
  perf_0 ++ cpu_status ++ perf_1 ++ floatStr cpu_usage ++ perf_2
    ++ cpu_status ++ perf_3 ++ floatStr cpu_usage ++ perf_4
    ++ generate_top_processes_table (cpu_top_processes_get s) "CPU" ++ perf_5
    ++ memory_status ++ perf_6 ++ floatStr memory_usage ++ perf_7
    ++ memory_status ++ perf_8 ++ floatStr memory_usage ++ perf_9
    ++ memory_used_human_get s ++ perf_10 ++ memory_total_human_get s ++ perf_11
    ++ generate_top_processes_table (memory_top_processes_get s) "Memory" ++ perf_12
    ++ swap_status ++ perf_13 ++ floatStr swap_usage ++ perf_14
    ++ swap_status ++ perf_15 ++ floatStr swap_usage ++ perf_16
    ++ memory_swap_used_human_get s ++ perf_17
    ++ memory_swap_total_human_get s ++ perf_18

/-- One row of the filesystem table. -/
def diskRow (fs : Filesystem) : String :=
  let status_class := "status-" ++ fs.status
  diskrow_0 ++ fs.filesystem ++ diskrow_1 ++ fs.size ++ diskrow_2 ++ fs.used
    ++ diskrow_3 ++ fs.available ++ diskrow_4 ++ fs.status ++ diskrow_5
    ++ toString fs.usage_percent ++ diskrow_6 ++ status_class ++ diskrow_7
    ++ toString fs.usage_percent ++ diskrow_8 ++ fs.mountpoint ++ diskrow_9
    ++ status_class ++ diskrow_10

/-- One row of the large-file table. -/
def diskLargeRow (file : LargeFile) : String :=
  disklargerow_0 ++ file.size ++ disklargerow_1 ++ file.date
    ++ disklargerow_2 ++ file.path ++ disklargerow_3

/-- _generate_disk_analysis: filesystem table or its placeholder line, then
the large-file table only when that list is nonempty. -/
def generate_disk_analysis (s : Snapshot) : String :=
  let filesystems := disk_filesystems_get s
  let fs_part :=
    if filesystems.isEmpty then "<p>No filesystem data available</p>"
    else disktable_0 ++ strConcatMap diskRow filesystems ++ "</tbody></table>"
  let large_files := disk_large_files_get s
  let lf_part :=
    if large_files.isEmpty then ""
    else disklarge_0 ++ strConcatMap diskLargeRow large_files ++ "</tbody></table>"
  diskhead_0 ++ fs_part ++ lf_part ++ "</div>"

/-- One interface block of the network section. -/
def netIfBlock (interface : Interface) : String :=
  let status_class := if interface.status = "UP" then "status-ok" else "status-critical"
  let addresses :=
    if interface.addresses.isEmpty then "No IP assigned"
    else String.intercalate ", " interface.addresses
  netif_0 ++ interface.name ++ netif_1 ++ status_class ++ netif_2
    ++ interface.status ++ netif_3 ++ addresses ++ netif_4

/-- _generate_network_status: interface blocks or their placeholder line,
then the connectivity card; Python truthiness makes None and the empty string
both fall back to Not configured. -/
def generate_network_status (s : Snapshot) : String :=
  let interfaces := network_interfaces_get s
  let if_part :=
    if interfaces.isEmpty then "<p>No network interface data available</p>"
    else strConcatMap netIfBlock interfaces
  let default_gw := network_default_gateway_get s
  let gw_truthy :=
    match default_gw with
    | some g => !g.isEmpty
    | none => false
  let dns_status := network_dns_status_get s
  let listening_ports := network_listening_ports_get s
  nethead_0 ++ if_part ++ "</div>"
    ++ netconn_0 ++ (if gw_truthy then "status-ok" else "status-warning")
    ++ netconn_1 ++ (if gw_truthy then default_gw.getD "" else "Not configured")
    ++ netconn_2 ++ dns_status ++ netconn_3
    ++ (if dns_status = "ok" then "Working" else "Failed") ++ netconn_4
    ++ toString listening_ports ++ netconn_5

/-- _generate_security_status: four cards from dictionary gets with
Unknown/unknown defaults. -/
def generate_security_status (s : Snapshot) : String :=
  let selinux := security_selinux_get s
  let firewall := security_firewall_get s
  let updates := security_updates_get s
  let logins := security_failed_logins_get s
  sechead_0
    ++ secselinux_0 ++ selinux.health ++ secselinux_1 ++ selinux.status ++ secselinux_2
    ++ secfirewall_0 ++ firewall.health ++ secfirewall_1 ++ firewall.status ++ secfirewall_2
    ++ secupdates_0 ++ updates.health ++ secupdates_1 ++ toString updates.available ++ secupdates_2
    ++ seclogins_0 ++ logins.health ++ seclogins_1 ++ toString logins.count ++ seclogins_2

/-- One row of the services table. -/
def svcRow (service : ServiceEntry) : String :=
  let status_class := "status-" ++ service.health
  let enabled_class :=
    if service.enabled = "enabled" then "status-ok" else "status-warning"
  svcrow_0 ++ service.name ++ svcrow_1 ++ status_class ++ svcrow_2
    ++ service.status ++ svcrow_3 ++ enabled_class ++ svcrow_4
    ++ service.enabled ++ svcrow_5 ++ status_class ++ svcrow_6

/-- _generate_services_status: summary alert, then the services table or its
placeholder line. -/
def generate_services_status (s : Snapshot) : String :=
  let critical_services := services_critical_get s
  let failed_count := services_failed_count_get s
  svchead_0 ++ (if failed_count = 0 then "success" else "warning") ++ svchead_1
    ++ toString critical_services.length ++ svchead_2 ++ toString failed_count
    ++ svchead_3
    ++ (if critical_services.isEmpty then "<p>No service data available</p>"
        else svctable_0 ++ strConcatMap svcRow critical_services
          ++ "</tbody></table>")
    ++ "</div>"

/-- generate_html: builds every section (only the overview can raise), then
fills the fixed template; metrics['system']['hostname'] is an unguarded
dictionary access. -/
def generate_html (s : Snapshot) : Except String String :=
  match generate_system_overview s with
  | Except.error e => Except.error e
  | Except.ok system_overview =>
    match s.system with
    | some (GroupSlot.ok system) =>
      Except.ok (tpl_0 ++ system.hostname ++ tpl_1 ++ system.hostname ++ tpl_2
        ++ system.timestamp ++ tpl_3 ++ system_overview ++ tpl_4
        ++ generate_performance_metrics s ++ tpl_5
        ++ generate_disk_analysis s ++ tpl_6
        ++ generate_network_status s ++ tpl_7
        ++ generate_security_status s ++ tpl_8
        ++ generate_services_status s ++ tpl_9)
    | some (GroupSlot.err _) => Except.error "KeyError: \x27hostname\x27"
    | none => Except.error "KeyError: \x27system\x27"

/- ===== Concrete fixtures used by witnesses and counterexamples ===== -/

/-- Zero load averages. -/
def la0 : LoadAvg := { one := 0, five := 0, fifteen := 0 }

/-- A well-formed system group record. -/
def sysData0 : SystemData :=
  { hostname := "web01", fqdn := "web01.example.com", os_info := "Rocky Linux 9",
    kernel := "5.14.0", architecture := "x86_64", uptime := "3d 4h",
    uptime_seconds := 274000, load_avg := la0,
    cpu_cores := 4, timestamp := "2026-10-12 10:00:00" }

/-- A cpu group record with zero load and no processes. -/
def cpu0 : CpuData :=
  { usage_percent := 0, model := "TestCPU", cores := 4, load_avg := la0,
    top_processes := [] }

/-- A memory group record with zero load. -/
def mem0 : MemoryData :=
  { total_bytes := 0, used_bytes := 0, available_bytes := 0,
    total_human := "0.0 B", used_human := "0.0 B", available_human := "0.0 B",
    usage_percent := 0, swap_total_bytes := 0, swap_used_bytes := 0,
    swap_total_human := "0.0 B", swap_used_human := "0.0 B",
    swap_usage_percent := 0, top_processes := [] }

/-- A healthy security group record. -/
def sec0 : SecurityData :=
  { selinux := { status := "Enforcing", health := "ok" },
    firewall := { status := "active (firewalld)", health := "ok" },
    updates := { available := 0, health := "ok" },
    failed_logins := { count := 0, health := "ok" } }

/-- A filesystem at 95 percent usage mounted at /data95. -/
def fs95 : Filesystem :=
  { filesystem := "/dev/sda1", size := "100G", used := "95G", available := "5G",
    usage_percent := 95, mountpoint := "/data95", status := disk_usage_status 95 }

/-- A filesystem at exactly 90 percent usage mounted at /data90. -/
def fs90 : Filesystem :=
  { filesystem := "/dev/sdb1", size := "100G", used := "90G", available := "10G",
    usage_percent := 90, mountpoint := "/data90", status := disk_usage_status 90 }

/-- Snapshot with one filesystem at 95 percent and zero cpu/memory load. -/
def snap95 : Snapshot :=
  { system := some (GroupSlot.ok sysData0)
    cpu := some (GroupSlot.ok cpu0)
    memory := some (GroupSlot.ok mem0)
    disk := some (GroupSlot.ok { filesystems := [fs95], inodes := [], large_files := [] })
    network := some (GroupSlot.ok { interfaces := [], default_gateway := none,
                                    dns_status := "ok", listening_ports := 5 })
    services := some (GroupSlot.ok { critical_services := [], failed_count := 0 })
    security := some (GroupSlot.ok sec0) }

/-- Snapshot with one filesystem at exactly 90 percent and zero cpu/memory load. -/
def snap90 : Snapshot :=
  { snap95 with
    disk := some (GroupSlot.ok { filesystems := [fs90], inodes := [], large_files := [] }) }

/- ===== Further definitions for claims C1, C2, C3, C8, C9, C10 ===== -/

/-- The overall-health rule exactly as the specification words it (refinement
comparison definition): critical if any filesystem is at 90 percent or more;
else warning if cpu is above 80 or memory above 85; else ok. -/
def spec_overall_health (s : Snapshot) : String :=
  if (disk_filesystems_get s).any (fun fs => decide (fs.usage_percent ≥ 90))
    then "critical"
  else if cpu_check s || memory_check s then "warning"
  else "ok"

/-- The document produced by generate_html for an intact system group and an
already-computed load-status class. -/
def html_body (s : Snapshot) (sys : SystemData) (load_status : String) : String :=
  tpl_0 ++ sys.hostname ++ tpl_1 ++ sys.hostname ++ tpl_2 ++ sys.timestamp ++ tpl_3
    ++ overview_body s sys load_status ++ tpl_4
    ++ generate_performance_metrics s ++ tpl_5
    ++ generate_disk_analysis s ++ tpl_6
    ++ generate_network_status s ++ tpl_7
    ++ generate_security_status s ++ tpl_8
    ++ generate_services_status s ++ tpl_9

/-- The Renderer run as a state transformer: the HTML result together with the
metrics dictionary as generate_html leaves it (the method only reads
self.metrics and never assigns into it). -/
def generate_html_run (s : Snapshot) : Except String String × Snapshot :=
  (generate_html s, s)

/-- Snapshot whose system group carries the error marker of a failed
collection. -/
def snapErr : Snapshot :=
  { snap95 with system := some (GroupSlot.err "collect failed") }

/-- A collected process whose command carries HTML markup delimiters. -/
def procX : ProcEntry :=
  { user := "root", pid := "1234", cpu := "12.5", mem := "3.2",
    command := "<b>hacked</b> --flag" }

/-- Snapshot carrying that process in the cpu top-process table. -/
def snapX : Snapshot :=
  { snap95 with cpu := some (GroupSlot.ok { cpu0 with top_processes := [procX] }) }

/-- Whether an Except value is a success (Python: no exception was raised). -/
def exceptOk {e a : Type} : Except e a → Bool
  | Except.ok _ => true
  | Except.error _ => false

/-- The probes collect_system_info needs: uptime and load average readable,
and the OS-release read either succeeding or failing with the one caught
exception (FileNotFoundError). -/
def sys_probes_ok (env : Env) : Bool :=
  exceptOk env.proc_uptime && exceptOk env.getloadavg
    && !(match env.redhat_release with
         | ReadResult.failed _ => true
         | _ => false)

/-- A ps aux line. -/
def psl1 : PsLine :=
  { user := "root", pid := "1", cpu := "0.5", mem := "1.0",
    command := "/usr/lib/systemd/systemd" }

/-- A healthy df -h row. -/
def dfRow1 : DfRow :=
  { filesystem := "/dev/sda1", size := "100G", used := "50G",
    available := "50G", usage_percent := 50, mountpoint := "/" }

/-- A healthy network interface. -/
def iface1 : Interface :=
  { name := "eth0", status := "UP", addresses := ["192.168.1.10/24"] }

/-- A healthy monitored-service probe. -/
def svc1 : ServiceProbe :=
  { name := "sshd", status := "active", enabled := "enabled" }

/-- An environment in which every probe succeeds. -/
def envOk : Env :=
  { redhat_release := ReadResult.ok "Rocky Linux release 9.3"
    platform_platform := "Linux-5.14.0"
    hostname := "web01"
    fqdn := "web01.example.com"
    timestamp := "2026-10-12 10:00:00"
    kernel := "5.14.0"
    architecture := "x86_64"
    proc_uptime := Except.ok 274000
    getloadavg := Except.ok (1/2, 1/4, 1/8)
    cpu_count := 4
    proc_stat := Except.ok [100, 50, 25, 1000, 10]
    ps_cpu := Except.ok [psl1]
    cpuinfo_model := some "Test CPU Model"
    meminfo := Except.ok [("MemTotal", 16384), ("MemFree", 8192),
      ("MemAvailable", 12288), ("SwapTotal", 8192), ("SwapFree", 8192)]
    ps_mem := Except.ok [psl1]
    df_h := Except.ok [dfRow1]
    df_i := Except.ok []
    find_large_files := Except.ok []
    ip_addr := Except.ok [iface1]
    route_default := Except.ok (some "192.168.1.1")
    nslookup_ok := true
    ss_listen := Except.ok 12
    services_found := [svc1]
    failed_units := Except.ok 0
    getenforce := Except.ok "Enforcing"
    firewalld_active := true
    iptables_active := false
    dnf_updates := Except.ok 0
    failed_logins_probe := Except.ok 2 }

/-- envOk with a failing /proc/uptime read (a system probe). -/
def envBad : Env := { envOk with proc_uptime := Except.error "boom" }

/-- envOk with a failing /proc/stat read (the cpu group probe). -/
def envCpuFail : Env := { envOk with proc_stat := Except.error "stat read failed" }

/- ===== Theorems ===== -/

theorem subStr_self (p : String) : SubStr p p :=
  ⟨[], [], by simp⟩

theorem string_data_append (a b : String) : (a ++ b).data = a.data ++ b.data :=
  rfl

theorem subStr_append_left {p s : String} (a : String) (h : SubStr p s) :
    SubStr p (a ++ s) := by
  obtain ⟨u, v, huv⟩ := h
  exact ⟨a.data ++ u, v, by rw [string_data_append, ← huv]; simp⟩

theorem subStr_append_right {p s : String} (b : String) (h : SubStr p s) :
    SubStr p (s ++ b) := by
  obtain ⟨u, v, huv⟩ := h
  exact ⟨u, v ++ b.data, by rw [string_data_append, ← huv]; simp⟩

theorem string_append_assoc (a b c : String) : a ++ b ++ c = a ++ (b ++ c) :=
  congrArg String.mk (List.append_assoc a.data b.data c.data)

/- ===== Claim C7: per-filesystem status thresholds ===== -/

/-- C7: the per-filesystem derived status is critical when usage is at least
90, warning when it is in [80, 90), ok below 80; the boundaries 79, 80 and 90
map to ok, warning and critical. -/
theorem disk_usage_status_thresholds :
    (∀ u : ℤ, (disk_usage_status u = "critical" ↔ 90 ≤ u)
      ∧ (disk_usage_status u = "warning" ↔ 80 ≤ u ∧ u < 90)
      ∧ (disk_usage_status u = "ok" ↔ u < 80))
    ∧ disk_usage_status 79 = "ok"
    ∧ disk_usage_status 80 = "warning"
    ∧ disk_usage_status 90 = "critical" := by
  refine ⟨fun u => ?_, by norm_num [disk_usage_status], by norm_num [disk_usage_status],
    by norm_num [disk_usage_status]⟩
  unfold disk_usage_status
  refine ⟨?_, ?_, ?_⟩ <;> split_ifs with h1 h2 <;> simp_all <;> omega

/-- C7 witness: the theorem applied at the boundary input 90. -/
theorem disk_usage_status_thresholds_witness : disk_usage_status 90 = "critical" :=
  (disk_usage_status_thresholds.1 90).1.mpr (by norm_num)

/- ===== Claim C6: human-readable byte conversion ===== -/

/-- C6: bytes_to_human uses 1024-based units B/KB/MB/GB/TB/PB with one decimal
digit, stepping to the next unit while the value is at least 1024; at the unit
boundaries 1024 bytes map to "1.0 KB", 1048576 to "1.0 MB", 999 to "999.0 B". -/
theorem bytes_to_human_spec :
    (∀ v : ℚ,
      (v < 1024 → bytes_to_human v = fmt1 v ++ " B")
      ∧ (1024 ≤ v → v < 1048576 → bytes_to_human v = fmt1 (v / 1024) ++ " KB")
      ∧ (1048576 ≤ v → v < 1073741824 →
          bytes_to_human v = fmt1 (v / 1048576) ++ " MB")
      ∧ (1073741824 ≤ v → v < 1099511627776 →
          bytes_to_human v = fmt1 (v / 1073741824) ++ " GB")
      ∧ (1099511627776 ≤ v → v < 1125899906842624 →
          bytes_to_human v = fmt1 (v / 1099511627776) ++ " TB")
      ∧ (1125899906842624 ≤ v →
          bytes_to_human v = fmt1 (v / 1125899906842624) ++ " PB"))
    ∧ bytes_to_human 1024 = "1.0 KB"
    ∧ bytes_to_human 1048576 = "1.0 MB"
    ∧ bytes_to_human 999 = "999.0 B" := by
  have unit_pos : (0:ℚ) < 1024 := by norm_num
  constructor
  · intro v
    refine ⟨?_, ?_, ?_, ?_, ?_, ?_⟩
    · intro h
      simp [bytes_to_human, bytesToHumanAux, h]
      rw [string_append_assoc]
      congr 1
    · intro h1 h2
      have hn1 : ¬ v < 1024 := not_lt.mpr h1
      have hd1 : v / 1024 < 1024 := by rw [div_lt_iff unit_pos]; linarith
      simp [bytes_to_human, bytesToHumanAux, hn1, hd1]
      rw [string_append_assoc]
      congr 1
    · intro h1 h2
      have hn1 : ¬ v < 1024 := by push_neg; nlinarith
      have hn2 : ¬ v / 1024 < 1024 := by
        rw [not_lt, le_div_iff unit_pos]; nlinarith
      have hd2 : v / 1024 / 1024 < 1024 := by
        rw [div_lt_iff unit_pos, div_lt_iff unit_pos]; nlinarith
      simp [bytes_to_human, bytesToHumanAux, hn1, hn2, hd2]
      have hv : (v / 1048576 : ℚ) = v / 1024 / 1024 := by rw [div_div]; norm_num
      rw [hv, string_append_assoc]
      congr 1
    · intro h1 h2
      have hn1 : ¬ v < 1024 := by push_neg; nlinarith
      have hn2 : ¬ v / 1024 < 1024 := by
        rw [not_lt, le_div_iff unit_pos]; nlinarith
      have hn3 : ¬ v / 1024 / 1024 < 1024 := by
        rw [not_lt, le_div_iff unit_pos, le_div_iff unit_pos]; nlinarith
      have hd3 : v / 1024 / 1024 / 1024 < 1024 := by
        rw [div_lt_iff unit_pos, div_lt_iff unit_pos, div_lt_iff unit_pos]; nlinarith
      simp [bytes_to_human, bytesToHumanAux, hn1, hn2, hn3, hd3]
      have hv : (v / 1073741824 : ℚ) = v / 1024 / 1024 / 1024 := by
        rw [div_div, div_div]; norm_num
      rw [hv, string_append_assoc]
      congr 1
    · intro h1 h2
      have hn1 : ¬ v < 1024 := by push_neg; nlinarith
      have hn2 : ¬ v / 1024 < 1024 := by
        rw [not_lt, le_div_iff unit_pos]; nlinarith
      have hn3 : ¬ v / 1024 / 1024 < 1024 := by
        rw [not_lt, le_div_iff unit_pos, le_div_iff unit_pos]; nlinarith
      have hn4 : ¬ v / 1024 / 1024 / 1024 < 1024 := by
        rw [not_lt, le_div_iff unit_pos, le_div_iff unit_pos, le_div_iff unit_pos]
        nlinarith
      have hd4 : v / 1024 / 1024 / 1024 / 1024 < 1024 := by
        rw [div_lt_iff unit_pos, div_lt_iff unit_pos, div_lt_iff unit_pos,
          div_lt_iff unit_pos]
        nlinarith
      simp [bytes_to_human, bytesToHumanAux, hn1, hn2, hn3, hn4, hd4]
      have hv : (v / 1099511627776 : ℚ) = v / 1024 / 1024 / 1024 / 1024 := by
        rw [div_div, div_div, div_div]; norm_num
      rw [hv, string_append_assoc]
      congr 1
    · intro h1
      have hn1 : ¬ v < 1024 := by push_neg; nlinarith
      have hn2 : ¬ v / 1024 < 1024 := by
        rw [not_lt, le_div_iff unit_pos]; nlinarith
      have hn3 : ¬ v / 1024 / 1024 < 1024 := by
        rw [not_lt, le_div_iff unit_pos, le_div_iff unit_pos]; nlinarith
      have hn4 : ¬ v / 1024 / 1024 / 1024 < 1024 := by
        rw [not_lt, le_div_iff unit_pos, le_div_iff unit_pos, le_div_iff unit_pos]
        nlinarith
      have hn5 : ¬ v / 1024 / 1024 / 1024 / 1024 < 1024 := by
        rw [not_lt, le_div_iff unit_pos, le_div_iff unit_pos, le_div_iff unit_pos,
          le_div_iff unit_pos]
        nlinarith
      simp [bytes_to_human, bytesToHumanAux, hn1, hn2, hn3, hn4, hn5]
      have hv : (v / 1125899906842624 : ℚ) = v / 1024 / 1024 / 1024 / 1024 / 1024 := by
        rw [div_div, div_div, div_div, div_div]; norm_num
      rw [hv]
  · refine ⟨?_, ?_, ?_⟩ <;>
      (norm_num [bytes_to_human, bytesToHumanAux, fmt1, roundHalfEven]; decide)

/-- C6 witness: the theorem applied at the boundary input 999. -/
theorem bytes_to_human_spec_witness : bytes_to_human 999 = fmt1 999 ++ " B" :=
  (bytes_to_human_spec.1 999).1 (by norm_num)

/- ===== Claim C5: swap percent division guard ===== -/

/-- C5: a zero swap total yields the literal percent 0 for every swap-free
value, the computation never returns a ZeroDivisionError, and the division is
skipped (result literally 0) whenever the total is not positive. -/
theorem swap_usage_percent_safe :
    (∀ swap_free : ℤ, swap_usage_percent 0 swap_free = Except.ok 0)
    ∧ (∀ swap_total swap_free : ℤ,
        ∃ v, swap_usage_percent swap_total swap_free = Except.ok v)
    ∧ (∀ swap_total swap_free : ℤ, swap_total ≤ 0 →
        swap_usage_percent swap_total swap_free = Except.ok 0) := by
  refine ⟨fun f => by norm_num [swap_usage_percent], ?_, ?_⟩
  · intro t f
    unfold swap_usage_percent
    split_ifs with h
    · have ht : (t : ℚ) ≠ 0 := by
        exact_mod_cast h.ne.symm
      simp [pydiv, ht]
    · exact ⟨0, rfl⟩
  · intro t f h
    simp [swap_usage_percent, not_lt.mpr h]

/-- C5 witness: the theorem applied at swap total 0, swap free 7. -/
theorem swap_usage_percent_safe_witness : swap_usage_percent 0 7 = Except.ok 0 :=
  swap_usage_percent_safe.2.2 0 7 le_rfl

/- ===== Claim C4: memory usage percent formula ===== -/

/-- C4 counterexample: at total 0 and available 0 (which satisfy
0 ≤ A ≤ T and T = A) the computation raises ZeroDivisionError instead of
producing the percent 0 the claim demands. -/
theorem mem_usage_percent_zero_total :
    mem_usage_percent 0 0 = Except.error "ZeroDivisionError"
    ∧ mem_usage_percent 0 0 ≠ Except.ok 0 := by
  constructor <;> simp [mem_usage_percent, pydiv]

/-- C4 amended: for 0 ≤ A ≤ T with T positive, the computed memory usage
percent is round((T−A)/T×100, 1), and is 0 whenever T = A. -/
theorem mem_usage_percent_formula (T A : ℤ) (h0 : 0 ≤ A) (h1 : A ≤ T) (h2 : 0 < T) :
    mem_usage_percent T A = Except.ok (pyRound (((T : ℚ) - (A : ℚ)) / (T : ℚ) * 100) 1)
    ∧ (T = A → mem_usage_percent T A = Except.ok 0) := by
  have hT : (T : ℚ) ≠ 0 := by exact_mod_cast h2.ne.symm
  constructor
  · simp [mem_usage_percent, pydiv, hT]
  · intro hTA
    subst hTA
    simp [mem_usage_percent, pydiv, hT]
    norm_num [pyRound, roundHalfEven]

/-- C4 witness: the amended theorem applied at T = 4, A = 1 (and, via the
formula, the concrete percent 75.0). -/
theorem mem_usage_percent_formula_witness :
    mem_usage_percent 4 1 = Except.ok (pyRound ((((4:ℤ) : ℚ) - ((1:ℤ) : ℚ)) / ((4:ℤ) : ℚ) * 100) 1) :=
  (mem_usage_percent_formula 4 1 (by norm_num) (by norm_num) (by norm_num)).1

/- ===== Helper lemmas shared between claims ===== -/

theorem overview_fold_health (l : List Filesystem) (p : String × List String) :
    (l.foldl overview_health_step p).1 =
      if l.any (fun fs => decide (fs.usage_percent > 90)) then "critical" else p.1 := by
  induction l generalizing p with
  | nil => simp
  | cons fs rest ih =>
    simp only [List.foldl_cons, List.any_cons]
    rw [ih]
    by_cases h : fs.usage_percent > 90
    · simp [overview_health_step, h]
    · simp [overview_health_step, h]

theorem generate_system_overview_ok (s : Snapshot) (sys : SystemData) (ls : String)
    (hs : s.system = some (GroupSlot.ok sys))
    (hls : get_load_status sys.load_avg.one sys.cpu_cores = Except.ok ls) :
    generate_system_overview s = Except.ok (overview_body s sys ls) := by
  simp [generate_system_overview, hs, hls]

theorem generate_html_ok (s : Snapshot) (sys : SystemData) (ls : String)
    (hs : s.system = some (GroupSlot.ok sys))
    (hls : get_load_status sys.load_avg.one sys.cpu_cores = Except.ok ls) :
    generate_html s = Except.ok (html_body s sys ls) := by
  simp [generate_html, generate_system_overview_ok s sys ls hs hls, hs, html_body]

/- ===== Claim C1: page-level overall health ===== -/

/-- C1 counterexample: at a snapshot whose only filesystem sits at exactly 90
percent with zero cpu and memory load, the specified rule (critical when any
filesystem is at 90 percent or more) demands critical, but the code computes
ok because its disk test is usage strictly greater than 90. -/
theorem overall_health_at_90_boundary :
    spec_overall_health snap90 = "critical"
    ∧ (overallHealthPair snap90).1 = "ok" := by
  constructor
  · norm_num [spec_overall_health, disk_filesystems_get, snap90, snap95, fs90,
      cpu_check, memory_check, cpu0, mem0]
  · norm_num [overallHealthPair, cpu_check, memory_check, disk_filesystems_get,
      overview_health_step, snap90, snap95, cpu0, mem0, fs90]

/-- C1 amended: the page-level health is critical if any filesystem is
strictly above 90 percent, else warning if cpu is above 80 or memory above 85,
else ok; at the 95-percent snapshot with zero cpu/memory load the health is
critical, the issues list carries the mountpoint, and the rendered overview
section contains it. -/
theorem overall_health_amended :
    (∀ s : Snapshot, (overallHealthPair s).1 =
      (if (disk_filesystems_get s).any (fun fs => decide (fs.usage_percent > 90))
        then "critical"
        else if cpu_check s || memory_check s then "warning" else "ok"))
    ∧ (overallHealthPair snap95).1 = "critical"
    ∧ "Critical disk space on /data95" ∈ (overallHealthPair snap95).2
    ∧ (generate_system_overview snap95).map
        (fun d => pyIn "Critical disk space on /data95" d) = Except.ok true := by
  refine ⟨?_, ?_, ?_, ?_⟩
  · intro s
    simp only [overallHealthPair]
    rw [overview_fold_health]
    by_cases hc : cpu_check s <;> by_cases hm : memory_check s <;> simp [hc, hm]
  · norm_num [overallHealthPair, cpu_check, memory_check, disk_filesystems_get,
      overview_health_step, snap95, cpu0, mem0, fs95]
  · norm_num [overallHealthPair, cpu_check, memory_check, disk_filesystems_get,
      overview_health_step, snap95, cpu0, mem0, fs95]
    decide
  · norm_num [generate_system_overview, overview_body, overallHealthPair, cpu_check,
      memory_check, disk_filesystems_get, overview_health_step, snap95, cpu0, mem0,
      fs95, sysData0, get_load_status, la0, floatStr, pyIn, Except.map]
    decide

/- ===== Claim C10: boundary disagreement between table and banner ===== -/

/-- C10: at exactly 90 percent usage the per-filesystem status field is
critical (threshold at least 90) while the page-level overall health is not
critical (its disk rule is strictly greater than 90), with cpu and memory
below their warning thresholds. -/
theorem fs_status_vs_overall_at_90 :
    fs90.status = "critical"
    ∧ cpu_usage_percent_get snap90 = 0
    ∧ memory_usage_percent_get snap90 = 0
    ∧ (overallHealthPair snap90).1 ≠ "critical" := by
  refine ⟨by norm_num [fs90, disk_usage_status], by rfl, by rfl, ?_⟩
  have h : (overallHealthPair snap90).1 = "ok" := by
    norm_num [overallHealthPair, cpu_check, memory_check, disk_filesystems_get,
      overview_health_step, snap90, snap95, cpu0, mem0, fs90]
  rw [h]
  decide

/- ===== Claim C9: purity of the Renderer ===== -/

/-- C9: the Renderer is a pure, deterministic function of the Snapshot: a run
leaves the snapshot unchanged, and rendering the snapshot left behind by one
run produces exactly the document of that run. -/
theorem generate_html_pure :
    ∀ s : Snapshot, (generate_html_run s).2 = s
      ∧ (generate_html_run ((generate_html_run s).2)).1 = (generate_html_run s).1 :=
  fun _ => ⟨rfl, rfl⟩

/- ===== Claim C3: graceful degradation of rendering ===== -/

/-- C3 counterexample: with the system group replaced by its error marker,
rendering raises a KeyError instead of succeeding with a placeholder. -/
theorem render_fails_on_system_error :
    generate_html snapErr = Except.error "KeyError: \x27uptime_seconds\x27" := by
  rfl

/-- C3 amended: rendering succeeds for every snapshot whose system group is
intact (with a nonzero core count), whatever the other groups contain; the
disk, network and services sections degrade to explanatory placeholder lines
when their lists are empty (in particular when their group is absent, empty or
an error marker); a snapshot whose system group is an error marker makes
rendering fail with a KeyError. -/
theorem render_degrades_gracefully :
    (∀ (s : Snapshot) (sys : SystemData), s.system = some (GroupSlot.ok sys) →
      sys.cpu_cores ≠ 0 → ∃ doc, generate_html s = Except.ok doc)
    ∧ (∀ s : Snapshot, disk_filesystems_get s = [] →
        SubStr "No filesystem data available" (generate_disk_analysis s))
    ∧ (∀ s : Snapshot, network_interfaces_get s = [] →
        SubStr "No network interface data available" (generate_network_status s))
    ∧ (∀ s : Snapshot, services_critical_get s = [] →
        SubStr "No service data available" (generate_services_status s))
    ∧ (∀ (s : Snapshot) (m : String), s.system = some (GroupSlot.err m) →
        generate_html s = Except.error "KeyError: \x27uptime_seconds\x27") := by
  refine ⟨?_, ?_, ?_, ?_, ?_⟩
  · intro s sys hs hc
    have hcq : ¬ ((sys.cpu_cores : ℚ) = 0) := by
      exact_mod_cast hc
    have hls : get_load_status sys.load_avg.one sys.cpu_cores =
        Except.ok (if sys.load_avg.one / (sys.cpu_cores : ℚ) ≥ 2 then "status-critical"
          else if sys.load_avg.one / (sys.cpu_cores : ℚ) ≥ 1 then "status-warning"
          else "status-ok") := by
      simp [get_load_status, hcq]
    exact ⟨_, generate_html_ok s sys _ hs hls⟩
  · intro s h
    simp only [generate_disk_analysis, h, List.isEmpty_nil, if_pos]
    apply subStr_append_right
    apply subStr_append_right
    apply subStr_append_left
    decide
  · intro s h
    simp only [generate_network_status, h, List.isEmpty_nil, if_pos]
    iterate 12 apply subStr_append_right
    apply subStr_append_left
    decide
  · intro s h
    simp only [generate_services_status, h, List.isEmpty_nil, if_pos,
      List.length_nil]
    apply subStr_append_right
    apply subStr_append_left
    decide
  · intro s m hs
    simp [generate_html, generate_system_overview, hs]

/-- C3 witness: rendering succeeds at the concrete snapshot snap95, applying
the amended theorem with its hypotheses discharged there. -/
theorem render_degrades_gracefully_witness :
    ∃ doc, generate_html snap95 = Except.ok doc :=
  render_degrades_gracefully.1 snap95 sysData0 rfl (by decide)

/- ===== Claim C2: per-group failure isolation in the Collector ===== -/

/-- C2 counterexample: a failing /proc/uptime read escapes collect_system_info
and collect_all_metrics — the whole collection aborts and no group at all is
populated, although every per-group probe of this environment succeeds. -/
theorem collect_all_metrics_propagates :
    collect_all_metrics envBad = Except.error "boom"
    ∧ exceptOk envBad.proc_stat = true
    ∧ exceptOk envBad.meminfo = true
    ∧ exceptOk envBad.df_h = true
    ∧ exceptOk envBad.ip_addr = true := by
  exact ⟨rfl, rfl, rfl, rfl, rfl⟩

/-- C2 amended: whenever the system probes succeed, collect_all_metrics
succeeds and stores, for every group, exactly the value of that group's own
guarded collector on the environment; a failing probe of the cpu, memory, disk
or network group turns only that group into its error marker, and the services
and security groups always populate. -/
theorem collect_all_metrics_isolation (env : Env) (h : sys_probes_ok env = true) :
    ∃ sys, collect_system_info env = Except.ok sys
      ∧ collect_all_metrics env = Except.ok {
          system := some (GroupSlot.ok sys)
          cpu := some (collect_cpu_metrics env sys)
          memory := some (collect_memory_metrics env)
          disk := some (collect_disk_metrics env)
          network := some (collect_network_metrics env)
          services := some (collect_service_metrics env)
          security := some (collect_security_metrics env) }
      ∧ (∀ e, env.proc_stat = Except.error e →
          collect_cpu_metrics env sys = GroupSlot.err e)
      ∧ (∀ e, env.meminfo = Except.error e →
          collect_memory_metrics env = GroupSlot.err e)
      ∧ (∀ e, env.df_h = Except.error e →
          collect_disk_metrics env = GroupSlot.err e)
      ∧ (∀ e, env.ip_addr = Except.error e →
          collect_network_metrics env = GroupSlot.err e)
      ∧ (∃ sd, collect_service_metrics env = GroupSlot.ok sd)
      ∧ (∃ xd, collect_security_metrics env = GroupSlot.ok xd) := by
  simp only [sys_probes_ok, Bool.and_eq_true, Bool.not_eq_true'] at h
  obtain ⟨⟨hu, hl⟩, hr⟩ := h
  cases hup : env.proc_uptime with
  | error e => rw [hup] at hu; simp [exceptOk] at hu
  | ok u =>
    cases hla : env.getloadavg with
    | error e => rw [hla] at hl; simp [exceptOk] at hl
    | ok la =>
      have hsys : ∃ sys, collect_system_info env = Except.ok sys := by
        cases hrr : env.redhat_release with
        | failed m => rw [hrr] at hr; simp at hr
        | ok s2 =>
          simp only [collect_system_info, hrr, hup, hla]
          exact ⟨_, rfl⟩
        | notFound =>
          simp only [collect_system_info, hrr, hup, hla]
          exact ⟨_, rfl⟩
      obtain ⟨sys, hsys⟩ := hsys
      refine ⟨sys, hsys, ?_, ?_, ?_, ?_, ?_, ⟨_, rfl⟩, ⟨_, rfl⟩⟩
      · simp [collect_all_metrics, hsys]
      · intro e he; simp [collect_cpu_metrics, he]
      · intro e he; simp [collect_memory_metrics, he]
      · intro e he; simp [collect_disk_metrics, he]
      · intro e he; simp [collect_network_metrics, he]

/-- C2 witness: the amended theorem at the concrete environment whose cpu
probe fails while every other probe succeeds: only the cpu group carries the
error marker and every other group is populated. -/
theorem collect_all_metrics_isolation_witness :
    ∃ sys, collect_system_info envCpuFail = Except.ok sys
      ∧ collect_all_metrics envCpuFail = Except.ok {
          system := some (GroupSlot.ok sys)
          cpu := some (GroupSlot.err "stat read failed")
          memory := some (collect_memory_metrics envCpuFail)
          disk := some (collect_disk_metrics envCpuFail)
          network := some (collect_network_metrics envCpuFail)
          services := some (collect_service_metrics envCpuFail)
          security := some (collect_security_metrics envCpuFail) } := by
  obtain ⟨sys, h1, h2, h3, _⟩ := collect_all_metrics_isolation envCpuFail rfl
  exact ⟨sys, h1, by rw [h2, h3 "stat read failed" rfl]⟩

/- ===== Claim C8: unescaped interpolation into the document ===== -/

/-- C8: no escaping of collected values: rendering succeeds on a snapshot
whose collected command string carries HTML markup delimiters, and the full
rendered document contains that string verbatim, delimiters included. -/
theorem html_unescaped_injection :
    ∃ doc, generate_html snapX = Except.ok doc ∧ SubStr "<b>hacked</b>" doc := by
  have hls : get_load_status sysData0.load_avg.one sysData0.cpu_cores
      = Except.ok "status-ok" := by
    norm_num [get_load_status, sysData0, la0]
  refine ⟨html_body snapX sysData0 "status-ok",
    generate_html_ok snapX sysData0 "status-ok" rfl hls, ?_⟩
  simp only [html_body]
  iterate 9 apply subStr_append_right
  apply subStr_append_left
  simp only [generate_performance_metrics]
  iterate 27 apply subStr_append_right
  apply subStr_append_left
  have hcp : cpu_top_processes_get snapX = [procX] := rfl
  rw [hcp]
  simp only [generate_top_processes_table, List.isEmpty_cons, List.take_succ_cons,
    List.take_nil, strConcatMap, Bool.false_eq_true, if_false]
  apply subStr_append_right
  apply subStr_append_left
  apply subStr_append_right
  apply subStr_append_right
  apply subStr_append_left
  decide
